import Mathlib

/-!
Verification development for the gasoline-mcp client-configuration engine
(`gasoline_mcp/config.py`, `install.py`, `uninstall.py`).

JSON documents are modelled by the inductive `Json`; Python dicts are modelled
as insertion-ordered association lists (`List (String × Json)`): assigning to a
present key replaces its value in place, assigning to an absent key appends at
the end, and deletion removes the entry, exactly as CPython dicts behave.
Fallible Python code is modelled with `Except PyErr`, with one error kind per
Python exception class that the source can raise, so that the `except (...)`
clauses of the orchestrators can be modelled faithfully.
-/

set_option autoImplicit false

namespace Gasoline

/-- A JSON value as produced by Python's `json.loads` (floats excluded:
the engine only manipulates object/array/string/int/bool/null shapes). -/
inductive Json where
  | null
  | bool (b : Bool)
  | num (n : Int)
  | str (s : String)
  | arr (elems : List Json)
  | obj (fields : List (String × Json))

/-- First value bound to key `k`, like Python `d[k]` / `d.get(k)`. -/
def alistLookup {α : Type} : List (String × α) → String → Option α
  | [], _ => none
  | (k', v) :: rest, k => if k' = k then some v else alistLookup rest k

/-- Python `k in d`. -/
def alistHasKey {α : Type} (l : List (String × α)) (k : String) : Bool :=
  (alistLookup l k).isSome

/-- Python `d[k] = v`: replace in place if present, append at the end if not. -/
def alistSet {α : Type} : List (String × α) → String → α → List (String × α)
  | [], k, v => [(k, v)]
  | (k', v') :: rest, k, v =>
      if k' = k then (k, v) :: rest else (k', v') :: alistSet rest k v

/-- Python `del d[k]` (on a dict the key occurs at most once). -/
def alistDel {α : Type} : List (String × α) → String → List (String × α)
  | [], _ => []
  | (k', v') :: rest, k =>
      if k' = k then rest else (k', v') :: alistDel rest k

/-- Python exception classes the modelled code can raise.  `FileSizeError`,
`InvalidJSONError` and the generic `GasolineError` all derive from
`GasolineError(Exception)`, hence are distinct from `OSError`, `ValueError`
and `KeyError`. -/
inductive PyErr where
  | osErr
  | valueErr
  | keyErr
  | typeErr
  | indexErr
  | attrErr
  | fileSizeErr (path : String) (size : Nat)
  | invalidJSONErr (path : String)
  | gasolineErr (msg : String)
deriving DecidableEq, Repr

/-- `config.merge_gasoline_config(existing, gasoline_entry, env_vars)`:
deep-copies `existing`, ensures `mcpServers` exists, assigns the `gasoline`
key to a copy of the entry, and attaches `env` when `env_vars` is non-empty.
Item assignment on a non-dict raises `TypeError`. -/
def merge_gasoline_config (existing gasoline_entry : Json)
    (env_vars : List (String × Json)) : Except PyErr Json :=
  match existing with
  | Json.obj fields =>
      let fields1 :=
        if alistHasKey fields "mcpServers" then fields
        else alistSet fields "mcpServers" (Json.obj [])
      match alistLookup fields1 "mcpServers" with
      | some (Json.obj servers) =>
          if env_vars.isEmpty then
            Except.ok (Json.obj (alistSet fields1 "mcpServers"
              (Json.obj (alistSet servers "gasoline" gasoline_entry))))
          else
            match gasoline_entry with
            | Json.obj ef =>
                Except.ok (Json.obj (alistSet fields1 "mcpServers"
                  (Json.obj (alistSet servers "gasoline"
                    (Json.obj (alistSet ef "env" (Json.obj env_vars)))))))
            | _ => Except.error PyErr.typeErr
      | _ => Except.error PyErr.typeErr
  | _ => Except.error PyErr.typeErr

/-- `config.validate_mcp_config(data)`: list of structural validation errors. -/
def validate_mcp_config (data : Json) : List String :=
  match data with
  | Json.obj fields =>
      if alistHasKey fields "mcpServers" then
        match alistLookup fields "mcpServers" with
        | some (Json.obj _) => []
        | _ => ["mcpServers must be an object"]
      else ["Missing required field: mcpServers"]
  | _ => ["Config must be an object"]

/-! ### JSON serialization (Python `json.dump(..., indent=2)` and `json.dumps`) -/

/-- Lowercase hexadecimal digit, as `format(n, "04x")` produces. -/
def hexDigit (n : Nat) : Char :=
  if n < 10 then Char.ofNat (48 + n) else Char.ofNat (87 + n)

/-- Four lowercase hex digits of a 16-bit value. -/
def hex4 (n : Nat) : String :=
  String.mk [hexDigit (n / 4096 % 16), hexDigit (n / 256 % 16),
             hexDigit (n / 16 % 16), hexDigit (n % 16)]

/-- One character escaped as Python's `json` module does with `ensure_ascii=True`:
named escapes for the common control characters, `\uXXXX` (surrogate pairs
beyond the BMP) for other non-printable or non-ASCII characters. -/
def escapeChar (c : Char) : String :=
  if c = Char.ofNat 34 then "\\\""
  else if c = Char.ofNat 92 then "\\\\"
  else if c = Char.ofNat 8 then "\\b"
  else if c = Char.ofNat 9 then "\\t"
  else if c = Char.ofNat 10 then "\\n"
  else if c = Char.ofNat 12 then "\\f"
  else if c = Char.ofNat 13 then "\\r"
  else if c.toNat < 32 || c.toNat > 126 then
    if c.toNat ≤ 65535 then "\\u" ++ hex4 c.toNat
    else
      let v := c.toNat - 65536
      "\\u" ++ hex4 (55296 + v / 1024) ++ "\\u" ++ hex4 (56320 + v % 1024)
  else String.singleton c

/-- A JSON string literal with quotes, escaped as Python's encoder does. -/
def encodeString (s : String) : String :=
  "\"" ++ String.join (s.data.map escapeChar) ++ "\""

/-- `n` spaces of indentation. -/
def spaces (n : Nat) : String :=
  String.mk (List.replicate n ' ')

mutual

/-- `json.dump(value, f, indent=2)` rendering of a value whose enclosing
item is indented at `level` columns (top level: 0). -/
def dumpIndent : Json → Nat → String
  | Json.null, _ => "null"
  | Json.bool true, _ => "true"
  | Json.bool false, _ => "false"
  | Json.num n, _ => toString n
  | Json.str s, _ => encodeString s
  | Json.arr [], _ => "[]"
  | Json.arr (x :: xs), level =>
      "[\n" ++ dumpItems (x :: xs) (level + 2) ++ "\n" ++ spaces level ++ "]"
  | Json.obj [], _ => "\x7b\x7d"
  | Json.obj (f :: fs), level =>
      "\x7b\n" ++ dumpFields (f :: fs) (level + 2) ++ "\n" ++ spaces level ++ "\x7d"

/-- Array items, one per line at indentation `level`, separated by commas. -/
def dumpItems : List Json → Nat → String
  | [], _ => ""
  | [x], level => spaces level ++ dumpIndent x level
  | x :: y :: xs, level =>
      spaces level ++ dumpIndent x level ++ ",\n" ++ dumpItems (y :: xs) level

/-- Object members, one per line at indentation `level`, separated by commas. -/
def dumpFields : List (String × Json) → Nat → String
  | [], _ => ""
  | [(k, v)], level => spaces level ++ encodeString k ++ ": " ++ dumpIndent v level
  | (k, v) :: f :: fs, level =>
      spaces level ++ encodeString k ++ ": " ++ dumpIndent v level ++ ",\n"
        ++ dumpFields (f :: fs) level

end

/-- The bytes `config.write_config_file` puts on disk: indented dump plus the
trailing newline the code appends. -/
def jsonDumpFile (j : Json) : String :=
  dumpIndent j 0 ++ "\n"

mutual

/-- `json.dumps(value)` with the default separators. -/
def dumpsJson : Json → String
  | Json.null => "null"
  | Json.bool true => "true"
  | Json.bool false => "false"
  | Json.num n => toString n
  | Json.str s => encodeString s
  | Json.arr xs => "[" ++ dumpsList xs ++ "]"
  | Json.obj fs => "\x7b" ++ dumpsFields fs ++ "\x7d"

/-- Comma-space separated array items. -/
def dumpsList : List Json → String
  | [] => ""
  | [x] => dumpsJson x
  | x :: y :: xs => dumpsJson x ++ ", " ++ dumpsList (y :: xs)

/-- Comma-space separated object members. -/
def dumpsFields : List (String × Json) → String
  | [] => ""
  | [(k, v)] => encodeString k ++ ": " ++ dumpsJson v
  | (k, v) :: f :: fs => encodeString k ++ ": " ++ dumpsJson v ++ ", " ++ dumpsFields (f :: fs)

end

/-! ### Filesystem model and the config file store -/

/-- One file on disk, as far as the engine observes it: its size in bytes and
its parse outcome (`none` models content that `json.loads` rejects). -/
structure FSFile where
  size : Nat
  parsed : Option Json

/-- The filesystem as the engine sees it: existing files by path, plus the
set of paths on which the OS refuses writes (modelling `OSError` from
`os.makedirs`/`open`/`os.rename`, which `write_config_file` wraps into a
`GasolineError`). -/
structure FS where
  files : List (String × FSFile)
  unwritable : List String

/-- `os.path.exists(path)`. -/
def pathExists (fs : FS) (path : String) : Bool :=
  (alistLookup fs.files path).isSome

/-- Shape of `config.read_config_file`'s normal return value. -/
structure ReadRes where
  valid : Bool
  data : Option Json

/-- `config.read_config_file(path)`: absent file yields `valid=False` (not an
exception); a file over 1,048,576 bytes raises `FileSizeError` before its
content is read; unparsable content raises `InvalidJSONError`. -/
def read_config_file (fs : FS) (path : String) : Except PyErr ReadRes :=
  match alistLookup fs.files path with
  | none => Except.ok ⟨false, none⟩
  | some f =>
      if f.size > 1048576 then Except.error (PyErr.fileSizeErr path f.size)
      else
        match f.parsed with
        | none => Except.error (PyErr.invalidJSONErr path)
        | some d => Except.ok ⟨true, some d⟩

/-- Shape of `config.write_config_file`'s return value; `before` models the
`"before": True` key present only in the dry-run result (`.get("before")`
is falsy on the real-write result). -/
structure WriteRes where
  success : Bool
  before : Bool

/-- `config.write_config_file(path, data, dry_run)`: dry-run returns before any
I/O; a real write atomically replaces the file with the indented dump and
wraps any `OSError` in a `GasolineError`. -/
def write_config_file (fs : FS) (path : String) (data : Json) (dry_run : Bool) :
    Except PyErr WriteRes × FS :=
  if dry_run then (Except.ok ⟨true, true⟩, fs)
  else if fs.unwritable.contains path then
    (Except.error (PyErr.gasolineErr ("Failed to write " ++ path)), fs)
  else
    (Except.ok ⟨true, false⟩,
     { fs with files := alistSet fs.files path ⟨(jsonDumpFile data).length, some data⟩ })

/-! ### Install orchestrator (`install.py`)

`execute_install` iterates the file-type candidate paths from
`config.get_config_candidates()` and maps each to a display name with
`config.get_tool_name_from_path`.  Both depend only on the host platform and
environment, so the model takes the candidate list and the name mapping as
parameters. -/

/-- `install.generate_default_config()`. -/
def generate_default_config : Json :=
  Json.obj [("mcpServers", Json.obj [("gasoline",
    Json.obj [("command", Json.str "gasoline-mcp"), ("args", Json.arr [])])])]

/-- The fixed service entry `execute_install` builds. -/
def gasoline_entry : Json :=
  Json.obj [("command", Json.str "gasoline-mcp"), ("args", Json.arr [])]

/-- An element of `result["updated"]`. -/
structure UpdateEntry where
  name : String
  path : String
  isNew : Bool

/-- An element of `result["diffs"]` (dry-run only). -/
structure DiffEntry where
  path : String
  before : Json
  after : Json

/-- An element of `result["errors"]`; the message is modelled by the raised
exception. -/
structure ErrorEntry where
  name : String
  err : PyErr

/-- The install orchestrator's aggregate result. -/
structure InstallResult where
  success : Bool
  updated : List UpdateEntry
  errors : List ErrorEntry
  diffs : List DiffEntry
  total : Nat

/-- The exception classes named in `except (OSError, ValueError, KeyError)` in
`_process_candidate` and `_install_default_candidate`.  `GasolineError` and its
subclasses (`FileSizeError`, `InvalidJSONError`), `TypeError` and `IndexError`
are not among them. -/
def caughtByInstall : PyErr → Bool
  | PyErr.osErr => true
  | PyErr.valueErr => true
  | PyErr.keyErr => true
  | _ => false

/-- `install._install_candidate`: read-or-default, merge, write; returns the
update entry, the dry-run diff, and `is_existing = not is_new`. -/
def _install_candidate (toolName : String → String) (entry : Json)
    (env_vars : List (String × Json)) (dry_run : Bool)
    (candidate_path : String) (fs : FS) :
    Except PyErr (UpdateEntry × Option DiffEntry × Bool) × FS :=
  let tool := toolName candidate_path
  match read_config_file fs candidate_path with
  | Except.error e => (Except.error e, fs)
  | Except.ok rr =>
      let config_data := match rr.data with
        | some d => if rr.valid then d else generate_default_config
        | none => generate_default_config
      let is_new : Bool := match rr.data with
        | some _ => !rr.valid
        | none => true
      let before := config_data
      match merge_gasoline_config config_data entry env_vars with
      | Except.error e => (Except.error e, fs)
      | Except.ok merged =>
          match write_config_file fs candidate_path merged dry_run with
          | (Except.error e, fs1) => (Except.error e, fs1)
          | (Except.ok wr, fs1) =>
              let diff := if dry_run && wr.before
                then some ⟨candidate_path, before, merged⟩ else none
              (Except.ok (⟨tool, candidate_path, is_new⟩, diff, !is_new), fs1)

/-- `install._handle_install_error`: skip silently when the path does not exist
and `for_all` is unset, else build a per-client error entry. -/
def _handle_install_error (toolName : String → String) (fs : FS)
    (candidate_path : String) (err : PyErr) (for_all : Bool) : Option ErrorEntry :=
  if !pathExists fs candidate_path && !for_all then none
  else some ⟨toolName candidate_path, err⟩

/-- `install._process_candidate`: returns `(found_existing, should_stop)` and
threads the result record; exceptions outside the caught classes propagate. -/
def _process_candidate (toolName : String → String) (entry : Json)
    (env_vars : List (String × Json)) (dry_run for_all : Bool)
    (candidate_path : String) (res : InstallResult) (fs : FS) :
    Except PyErr (Bool × Bool × InstallResult) × FS :=
  match _install_candidate toolName entry env_vars dry_run candidate_path fs with
  | (Except.ok (u, d, is_existing), fs1) =>
      let res1 := { res with
        updated := res.updated ++ [u]
        diffs := match d with
          | some de => res.diffs ++ [de]
          | none => res.diffs }
      (Except.ok (is_existing, !for_all && is_existing, res1), fs1)
  | (Except.error e, fs1) =>
      if caughtByInstall e then
        match _handle_install_error toolName fs1 candidate_path e for_all with
        | some ee =>
            (Except.ok (false, !for_all, { res with errors := res.errors ++ [ee] }), fs1)
        | none => (Except.ok (false, false, res), fs1)
      else (Except.error e, fs1)

/-- `install._install_default_candidate`: writes the merged default document to
`candidates[0]`; an empty list raises `IndexError` (uncaught), and only
`OSError`/`ValueError`/`KeyError` reach the handler that names "Claude Desktop". -/
def _install_default_candidate (toolName : String → String)
    (candidates : List String) (entry : Json) (env_vars : List (String × Json))
    (dry_run : Bool) (fs : FS) :
    Except PyErr (Option UpdateEntry × Option ErrorEntry) × FS :=
  match candidates with
  | [] => (Except.error PyErr.indexErr, fs)
  | default_path :: _ =>
      match merge_gasoline_config generate_default_config entry env_vars with
      | Except.error e =>
          if caughtByInstall e then (Except.ok (none, some ⟨"Claude Desktop", e⟩), fs)
          else (Except.error e, fs)
      | Except.ok merged =>
          match write_config_file fs default_path merged dry_run with
          | (Except.error e, fs1) =>
              if caughtByInstall e then (Except.ok (none, some ⟨"Claude Desktop", e⟩), fs1)
              else (Except.error e, fs1)
          | (Except.ok _, fs1) =>
              (Except.ok (some ⟨toolName default_path, default_path, true⟩, none), fs1)

/-- The candidate loop of `execute_install`, with its `break` on `should_stop`. -/
def installLoop (toolName : String → String) (entry : Json)
    (env_vars : List (String × Json)) (dry_run for_all : Bool) :
    List String → Bool → InstallResult → FS → Except PyErr (Bool × InstallResult) × FS
  | [], found, res, fs => (Except.ok (found, res), fs)
  | p :: rest, found, res, fs =>
      match _process_candidate toolName entry env_vars dry_run for_all p res fs with
      | (Except.error e, fs1) => (Except.error e, fs1)
      | (Except.ok (is_existing, should_stop, res1), fs1) =>
          let found1 := found || is_existing
          if should_stop then (Except.ok (found1, res1), fs1)
          else installLoop toolName entry env_vars dry_run for_all rest found1 res1 fs1

/-- The options record `execute_install` reads (`dryRun`, `forAll`, `envVars`). -/
structure InstallOptions where
  dryRun : Bool
  forAll : Bool
  envVars : List (String × Json)

/-- `install.execute_install(options)` over the candidate list. -/
def execute_install (toolName : String → String) (candidates : List String)
    (opts : InstallOptions) (fs : FS) : Except PyErr InstallResult × FS :=
  let res0 : InstallResult := ⟨false, [], [], [], 4⟩
  match installLoop toolName gasoline_entry opts.envVars opts.dryRun opts.forAll
      candidates false res0 fs with
  | (Except.error e, fs1) => (Except.error e, fs1)
  | (Except.ok (found, res), fs1) =>
      if !found && !opts.forAll && res.updated.isEmpty then
        match _install_default_candidate toolName candidates gasoline_entry
            opts.envVars opts.dryRun fs1 with
        | (Except.error e, fs2) => (Except.error e, fs2)
        | (Except.ok (u, er), fs2) =>
            let res1 := { res with
              updated := res.updated ++ u.toList
              errors := res.errors ++ er.toList }
            (Except.ok { res1 with success := !res1.updated.isEmpty }, fs2)
      else (Except.ok { res with success := !res.updated.isEmpty }, fs1)

/-! ### File-type uninstall (`uninstall.py`) -/

/-- Python truthiness of a JSON value (`if not x:`). -/
def pyTruthy : Json → Bool
  | Json.null => false
  | Json.bool b => b
  | Json.num n => n != 0
  | Json.str s => !s.isEmpty
  | Json.arr xs => !xs.isEmpty
  | Json.obj fs => !fs.isEmpty

/-- Truthiness of `d.get(k)`: `None` (absent key) is falsy. -/
def pyTruthyOpt : Option Json → Bool
  | none => false
  | some v => pyTruthy v

/-- A file-type client as `_uninstall_via_file` consumes it: display name, id,
and the platform-resolved config path (`None` when no template applies). -/
structure FileClient where
  name : String
  id : String
  cfgPath : Option String

/-- Per-client uninstall status. -/
inductive UStatus where
  | removed
  | notConfigured
  | uerror
deriving DecidableEq, Repr

/-- `_uninstall_via_file`'s per-client result record. -/
structure UninstallRes where
  status : UStatus
  name : String
  id : String
  path : Option String

/-- The document after `del modified["mcpServers"]["gasoline"]`
(`uninstall.py` lines 109-110); `none` models the `KeyError`/`TypeError`
Python would raise when the key path is not there. -/
def remove_gasoline_entry : Json → Option Json
  | Json.obj fields =>
      match alistLookup fields "mcpServers" with
      | some (Json.obj servers) =>
          if alistHasKey servers "gasoline" then
            some (Json.obj (alistSet fields "mcpServers"
              (Json.obj (alistDel servers "gasoline"))))
          else none
      | _ => none
  | _ => none

/-- `uninstall._uninstall_via_file(definition, options)`: `notConfigured` when
no path, no file, or no truthy `gasoline` entry; dry-run reports `removed`
before touching disk; otherwise deletes the `gasoline` key and either writes
the reduced document back or removes the file when no servers remain.
`.get` on a non-dict raises `AttributeError`. -/
def _uninstall_via_file (c : FileClient) (dry_run : Bool) (fs : FS) :
    Except PyErr UninstallRes × FS :=
  match c.cfgPath with
  | none => (Except.ok ⟨UStatus.notConfigured, c.name, c.id, none⟩, fs)
  | some p =>
      if !pathExists fs p then
        (Except.ok ⟨UStatus.notConfigured, c.name, c.id, none⟩, fs)
      else
        match read_config_file fs p with
        | Except.error e => (Except.error e, fs)
        | Except.ok rr =>
            match rr.data with
            | none => (Except.ok ⟨UStatus.uerror, c.name, c.id, none⟩, fs)
            | some (Json.obj fields) =>
                match (alistLookup fields "mcpServers").getD (Json.obj []) with
                | Json.obj servers =>
                    if !pyTruthyOpt (alistLookup servers "gasoline") then
                      (Except.ok ⟨UStatus.notConfigured, c.name, c.id, none⟩, fs)
                    else if dry_run then
                      (Except.ok ⟨UStatus.removed, c.name, c.id, some p⟩, fs)
                    else
                      let servers1 := alistDel servers "gasoline"
                      let modified := Json.obj (alistSet fields "mcpServers" (Json.obj servers1))
                      if !servers1.isEmpty then
                        match write_config_file fs p modified false with
                        | (Except.error e, fs1) => (Except.error e, fs1)
                        | (Except.ok _, fs1) =>
                            (Except.ok ⟨UStatus.removed, c.name, c.id, some p⟩, fs1)
                      else
                        (Except.ok ⟨UStatus.removed, c.name, c.id, some p⟩,
                         { fs with files := alistDel fs.files p })
                | _ => (Except.error PyErr.attrErr, fs)
            | some _ => (Except.error PyErr.attrErr, fs)

/-! ### CLI-type install path

The repository's tests (`tests/test_install.py`) import `build_mcp_entry` and
`install_to_client` from `gasoline_mcp.install`, and the registry declares
`installArgs` for the one CLI-type client, but that implementation is not in
the sources here; the definitions below are modelled from the spec. -/

/-- A CLI-type client definition (registry fields for `type == "cli"`). -/
structure CliClient where
  name : String
  id : String
  detectCommand : String
  installArgs : List String

/-- The one CLI-type entry of `CLIENT_DEFINITIONS` (`config.py` lines 71-78). -/
def claude_code_client : CliClient :=
  ⟨"Claude Code", "claude-code", "claude",
   ["mcp", "add-json", "--scope", "user", "gasoline"]⟩

/-- Modelled from the spec: `build_mcp_entry` (imported by
`tests/test_install.py` but absent from the sources) — the JSON-serialized
service entry `{command, args[, env]}`, env attached when non-empty. -/
def build_mcp_entry (env_vars : List (String × Json)) : String :=
  dumpsJson (if env_vars.isEmpty then gasoline_entry
             else Json.obj [("command", Json.str "gasoline-mcp"),
                            ("args", Json.arr []),
                            ("env", Json.obj env_vars)])

/-- An external process invocation: command, argument vector, standard-input
payload, timeout in seconds. -/
structure ProcCall where
  cmd : String
  args : List String
  stdinPayload : String
  timeout : Nat

/-- Outcome of running an external command, supplied by the environment. -/
inductive ProcOutcome where
  | success
  | nonzeroExit (code : Nat)
  | launchFailure
deriving DecidableEq, Repr

/-- Result record of the CLI-type install path. -/
structure CliInstallRes where
  success : Bool
  method : String
  isError : Bool

/-- Modelled from the spec: the CLI-type branch of `install_to_client`
(imported by `tests/test_install.py` but absent from the sources) — in
dry-run, report without executing; otherwise invoke the client's own
registration command (`detectCommand` with `installArgs`), feeding the
JSON-serialized service entry on standard input under a 15-second timeout,
and treat nonzero exit or launch failure as a per-client error.  The second
component is the invocation performed (`none` in dry-run). -/
def install_to_client_cli (c : CliClient) (env_vars : List (String × Json))
    (dry_run : Bool) (run : ProcCall → ProcOutcome) :
    CliInstallRes × Option ProcCall :=
  if dry_run then (⟨true, "cli", false⟩, none)
  else
    let call : ProcCall := ⟨c.detectCommand, c.installArgs, build_mcp_entry env_vars, 15⟩
    match run call with
    | ProcOutcome.success => (⟨true, "cli", false⟩, some call)
    | ProcOutcome.nonzeroExit _ => (⟨false, "cli", true⟩, some call)
    | ProcOutcome.launchFailure => (⟨false, "cli", true⟩, some call)

/-! ### Helper views of the merge (for proofs) -/

/-- The document after `if "mcpServers" not in merged: merged["mcpServers"] = {}`. -/
def ensureMcp (fields : List (String × Json)) : List (String × Json) :=
  if alistHasKey fields "mcpServers" then fields
  else alistSet fields "mcpServers" (Json.obj [])

/-- The value `merge_gasoline_config` finally stores under the `gasoline` key:
the entry itself, or the entry with `env` attached when `env_vars` is
non-empty (raising `TypeError` when the entry is not a dict). -/
def gasolineValue (entry : Json) (env_vars : List (String × Json)) : Except PyErr Json :=
  if env_vars.isEmpty then Except.ok entry
  else
    match entry with
    | Json.obj ef => Except.ok (Json.obj (alistSet ef "env" (Json.obj env_vars)))
    | _ => Except.error PyErr.typeErr

/-- Top-level fields of an object document (empty for non-objects). -/
def jsonObjFields : Json → List (String × Json)
  | Json.obj fs => fs
  | _ => []

/-- The `mcpServers` mapping of a document (empty when absent or non-object). -/
def mcpServersOf (m : Json) : List (String × Json) :=
  match alistLookup (jsonObjFields m) "mcpServers" with
  | some (Json.obj s) => s
  | _ => []

/-- The document the install fallback writes: the freshly generated default
config with the service entry (and `env`, when non-empty) merged in. -/
def mergedDefault (env_vars : List (String × Json)) : Json :=
  Json.obj [("mcpServers", Json.obj [("gasoline",
    if env_vars.isEmpty then gasoline_entry
    else Json.obj [("command", Json.str "gasoline-mcp"), ("args", Json.arr []),
                   ("env", Json.obj env_vars)])])]

/-! ### Association-list lemmas -/

theorem alistLookup_set_self {α : Type} (l : List (String × α)) (k : String) (v : α) :
    alistLookup (alistSet l k v) k = some v := by
  induction l with
  | nil => simp [alistSet, alistLookup]
  | cons hd tl ih =>
      obtain ⟨k', v'⟩ := hd
      by_cases h : k' = k
      · simp [alistSet, alistLookup, h]
      · simp [alistSet, alistLookup, h, ih]

theorem alistLookup_set_ne {α : Type} (l : List (String × α)) (k k' : String) (v : α)
    (h : k' ≠ k) : alistLookup (alistSet l k v) k' = alistLookup l k' := by
  have h2 : ¬(k = k') := fun hh => h hh.symm
  induction l with
  | nil => simp [alistSet, alistLookup, h2]
  | cons hd tl ih =>
      obtain ⟨k0, v0⟩ := hd
      by_cases h0 : k0 = k
      · subst h0
        simp [alistSet, alistLookup, h2]
      · simp [alistSet, alistLookup, h0, ih]

theorem alistSet_set_self {α : Type} (l : List (String × α)) (k : String) (v w : α) :
    alistSet (alistSet l k v) k w = alistSet l k w := by
  induction l with
  | nil => simp [alistSet]
  | cons hd tl ih =>
      obtain ⟨k', v'⟩ := hd
      by_cases h : k' = k
      · simp [alistSet, h]
      · simp [alistSet, h, ih]

theorem alistSet_lookup_self {α : Type} (l : List (String × α)) (k : String) (v : α)
    (h : alistLookup l k = some v) : alistSet l k v = l := by
  induction l with
  | nil => simp [alistLookup] at h
  | cons hd tl ih =>
      obtain ⟨k', v'⟩ := hd
      by_cases h0 : k' = k
      · subst h0
        simp [alistLookup] at h
        simp [alistSet, h]
      · simp [alistLookup, h0] at h
        simp [alistSet, h0, ih h]

theorem alistDel_set {α : Type} (l : List (String × α)) (k : String) (v : α) :
    alistDel (alistSet l k v) k = alistDel l k := by
  induction l with
  | nil => simp [alistSet, alistDel]
  | cons hd tl ih =>
      obtain ⟨k', v'⟩ := hd
      by_cases h : k' = k
      · simp [alistSet, alistDel, h]
      · simp [alistSet, alistDel, h, ih]

theorem alistDel_not_has {α : Type} (l : List (String × α)) (k : String)
    (h : alistHasKey l k = false) : alistDel l k = l := by
  induction l with
  | nil => simp [alistDel]
  | cons hd tl ih =>
      obtain ⟨k', v'⟩ := hd
      by_cases h0 : k' = k
      · subst h0
        simp [alistHasKey, alistLookup] at h
      · simp [alistHasKey, alistLookup, h0] at h
        have h2 : alistHasKey tl k = false := by simp [alistHasKey, h]
        simp [alistDel, h0, ih h2]

theorem alistHasKey_set_self {α : Type} (l : List (String × α)) (k : String) (v : α) :
    alistHasKey (alistSet l k v) k = true := by
  simp [alistHasKey, alistLookup_set_self]

/-! ### Shape of a successful merge -/

theorem merge_obj_eq (fields : List (String × Json)) (entry : Json)
    (env_vars : List (String × Json)) :
    merge_gasoline_config (Json.obj fields) entry env_vars =
      match alistLookup (ensureMcp fields) "mcpServers" with
      | some (Json.obj servers) =>
          Except.map
            (fun e => Json.obj (alistSet (ensureMcp fields) "mcpServers"
              (Json.obj (alistSet servers "gasoline" e))))
            (gasolineValue entry env_vars)
      | _ => Except.error PyErr.typeErr := by
  simp only [merge_gasoline_config, ensureMcp, gasolineValue]
  cases h : alistLookup
      (if alistHasKey fields "mcpServers" then fields
       else alistSet fields "mcpServers" (Json.obj [])) "mcpServers" with
  | none => rfl
  | some v =>
      cases v with
      | obj servers =>
          by_cases he : env_vars.isEmpty
          · simp [he, Except.map]
          · cases entry <;> simp [he, Except.map]
      | null => rfl
      | bool b => rfl
      | num n => rfl
      | str s => rfl
      | arr xs => rfl

theorem ensureMcp_lookup_self (fields : List (String × Json)) :
    alistLookup (ensureMcp fields) "mcpServers" =
      some ((alistLookup fields "mcpServers").getD (Json.obj [])) := by
  unfold ensureMcp
  by_cases hk : alistHasKey fields "mcpServers"
  · simp only [hk, if_true]
    cases h : alistLookup fields "mcpServers" with
    | none => simp [alistHasKey, h] at hk
    | some v => simp [h]
  · have h : alistLookup fields "mcpServers" = none := by
      simp [alistHasKey] at hk
      exact hk
    simp [hk, h, alistLookup_set_self]

/-- A successful merge, decomposed: the ensured `mcpServers` value was a dict
`servers`, the stored gasoline value is `gasolineValue`, and the result sets
`mcpServers` to `servers` with `gasoline` reassigned. -/
theorem merge_ok_shape (fields : List (String × Json)) (entry : Json)
    (env_vars : List (String × Json)) (m : Json)
    (h : merge_gasoline_config (Json.obj fields) entry env_vars = Except.ok m) :
    ∃ servers e,
      alistLookup (ensureMcp fields) "mcpServers" = some (Json.obj servers) ∧
      gasolineValue entry env_vars = Except.ok e ∧
      m = Json.obj (alistSet (ensureMcp fields) "mcpServers"
            (Json.obj (alistSet servers "gasoline" e))) := by
  rw [merge_obj_eq] at h
  cases hl : alistLookup (ensureMcp fields) "mcpServers" with
  | none => rw [hl] at h; exact absurd h (by simp)
  | some v =>
      rw [hl] at h
      cases v with
      | obj servers =>
          cases hg : gasolineValue entry env_vars with
          | error e => rw [hg] at h; simp [Except.map] at h
          | ok e =>
              rw [hg] at h
              simp only [Except.map, Except.ok.injEq] at h
              exact ⟨servers, e, rfl, rfl, h.symm⟩
      | null => exact absurd h (by simp)
      | bool b => exact absurd h (by simp)
      | num n => exact absurd h (by simp)
      | str s => exact absurd h (by simp)
      | arr xs => exact absurd h (by simp)

theorem merge_ok_of_obj (existing entry : Json) (env_vars : List (String × Json))
    (m : Json) (h : merge_gasoline_config existing entry env_vars = Except.ok m) :
    ∃ fields, existing = Json.obj fields := by
  cases existing with
  | obj fields => exact ⟨fields, rfl⟩
  | null => simp [merge_gasoline_config] at h
  | bool b => simp [merge_gasoline_config] at h
  | num n => simp [merge_gasoline_config] at h
  | str s => simp [merge_gasoline_config] at h
  | arr xs => simp [merge_gasoline_config] at h

/-- Claim C1: for every JSON object document, service entry and env mapping,
merging the service entry into an already-merged document yields the identical
document — `merge_gasoline_config(merge_gasoline_config(D, E, env), E, env) =
merge_gasoline_config(D, E, env)` — so a second install pass over an
already-installed target writes a byte-identical document. -/
theorem C1_merge_idempotent (existing entry : Json) (env_vars : List (String × Json))
    (m : Json) (h : merge_gasoline_config existing entry env_vars = Except.ok m) :
    merge_gasoline_config m entry env_vars = Except.ok m := by
  obtain ⟨fields, rfl⟩ := merge_ok_of_obj existing entry env_vars m h
  obtain ⟨servers, e, _, hg, rfl⟩ := merge_ok_shape fields entry env_vars m h
  rw [merge_obj_eq]
  have hensure : ensureMcp (alistSet (ensureMcp fields) "mcpServers"
      (Json.obj (alistSet servers "gasoline" e)))
      = alistSet (ensureMcp fields) "mcpServers"
          (Json.obj (alistSet servers "gasoline" e)) := by
    unfold ensureMcp
    rw [alistHasKey_set_self]
    simp
  rw [hensure]
  simp only [alistLookup_set_self]
  rw [hg]
  simp only [Except.map]
  rw [alistSet_set_self, alistSet_set_self]

/-- Witness for C1 at a concrete input: an empty document, the fixed service
entry, and one environment variable. -/
theorem C1_witness :
    merge_gasoline_config
      (Json.obj [("mcpServers", Json.obj [("gasoline",
        Json.obj [("command", Json.str "gasoline-mcp"), ("args", Json.arr []),
                  ("env", Json.obj [("DEBUG", Json.str "1")])])])])
      gasoline_entry [("DEBUG", Json.str "1")]
    = Except.ok (Json.obj [("mcpServers", Json.obj [("gasoline",
        Json.obj [("command", Json.str "gasoline-mcp"), ("args", Json.arr []),
                  ("env", Json.obj [("DEBUG", Json.str "1")])])])]) :=
  C1_merge_idempotent (Json.obj []) gasoline_entry [("DEBUG", Json.str "1")] _ rfl

/-- Claim C6: merging into a document whose `mcpServers` mapping contains other
entries leaves every other entry's value unchanged, and every top-level key
other than `mcpServers` unchanged (the Python code deep-copies, so the model is
a pure function of the input). -/
theorem C6_merge_preserves_siblings (fields servers : List (String × Json))
    (entry : Json) (env_vars : List (String × Json)) (m : Json)
    (hs : alistLookup fields "mcpServers" = some (Json.obj servers))
    (h : merge_gasoline_config (Json.obj fields) entry env_vars = Except.ok m) :
    (∀ k, k ≠ "gasoline" → alistLookup (mcpServersOf m) k = alistLookup servers k)
    ∧ (∀ k, k ≠ "mcpServers" → alistLookup (jsonObjFields m) k = alistLookup fields k) := by
  obtain ⟨servers0, e, hl, _, rfl⟩ := merge_ok_shape fields entry env_vars m h
  have hk : alistHasKey fields "mcpServers" = true := by simp [alistHasKey, hs]
  have hem : ensureMcp fields = fields := by simp [ensureMcp, hk]
  rw [hem] at hl
  rw [hs] at hl
  have hEq : servers0 = servers := (Json.obj.inj (Option.some.inj hl)).symm
  rw [hem, hEq]
  constructor
  · intro k hk'
    have hms : mcpServersOf (Json.obj (alistSet fields "mcpServers"
        (Json.obj (alistSet servers "gasoline" e))))
        = alistSet servers "gasoline" e := by
      simp [mcpServersOf, jsonObjFields, alistLookup_set_self]
    rw [hms]
    exact alistLookup_set_ne servers "gasoline" k e hk'
  · intro k hk'
    exact alistLookup_set_ne fields "mcpServers" k _ hk'

/-- Witness for C6: a document with a sibling entry `other` keeps its value
through the merge. -/
theorem C6_witness :
    alistLookup (mcpServersOf (Json.obj [("mcpServers",
        Json.obj [("other", Json.obj [("command", Json.str "x")]),
                  ("gasoline", gasoline_entry)])])) "other"
      = alistLookup [("other", Json.obj [("command", Json.str "x")])] "other" :=
  (C6_merge_preserves_siblings
    [("mcpServers", Json.obj [("other", Json.obj [("command", Json.str "x")])])]
    [("other", Json.obj [("command", Json.str "x")])]
    gasoline_entry []
    (Json.obj [("mcpServers", Json.obj [("other", Json.obj [("command", Json.str "x")]),
      ("gasoline", gasoline_entry)])])
    rfl rfl).1 "other" (by decide)

/-- Claim C2 counterexample: when the document already contains a `gasoline`
entry under `mcpServers`, removing the reserved key after the merge does not
restore the document (the original entry is lost), even though `mcpServers`
was present originally, so the claim's only exception clause does not apply. -/
theorem C2_counterexample :
    merge_gasoline_config
        (Json.obj [("mcpServers", Json.obj [("gasoline",
          Json.obj [("command", Json.str "old")])])])
        gasoline_entry []
      = Except.ok (Json.obj [("mcpServers", Json.obj [("gasoline", gasoline_entry)])])
    ∧ remove_gasoline_entry
        (Json.obj [("mcpServers", Json.obj [("gasoline", gasoline_entry)])])
      = some (Json.obj [("mcpServers", Json.obj [])])
    ∧ Json.obj [("mcpServers", Json.obj [])]
        ≠ Json.obj [("mcpServers", Json.obj [("gasoline",
            Json.obj [("command", Json.str "old")])])]
    ∧ alistHasKey [("mcpServers", Json.obj [("gasoline",
        Json.obj [("command", Json.str "old")])])] "mcpServers" = true := by
  refine ⟨rfl, rfl, ?_, rfl⟩
  simp

/-- Claim C2 as amended: for documents whose `mcpServers` mapping (when it is
a mapping) does not already contain the reserved `gasoline` key, deleting that
key from the merged document restores the original document, except that
`mcpServers` is present as an empty object when the original had no
`mcpServers` key. -/
theorem C2_roundtrip_amended (fields : List (String × Json)) (entry : Json)
    (env_vars : List (String × Json)) (m : Json)
    (h : merge_gasoline_config (Json.obj fields) entry env_vars = Except.ok m)
    (hng : ∀ servers, alistLookup fields "mcpServers" = some (Json.obj servers) →
      alistHasKey servers "gasoline" = false) :
    remove_gasoline_entry m =
      some (if alistHasKey fields "mcpServers" then Json.obj fields
            else Json.obj (alistSet fields "mcpServers" (Json.obj []))) := by
  obtain ⟨servers, e, hl, _, rfl⟩ := merge_ok_shape fields entry env_vars m h
  have hred : remove_gasoline_entry (Json.obj (alistSet (ensureMcp fields) "mcpServers"
      (Json.obj (alistSet servers "gasoline" e))))
      = some (Json.obj (alistSet (alistSet (ensureMcp fields) "mcpServers"
          (Json.obj (alistSet servers "gasoline" e))) "mcpServers"
          (Json.obj (alistDel (alistSet servers "gasoline" e) "gasoline")))) := by
    simp [remove_gasoline_entry, alistLookup_set_self, alistHasKey_set_self]
  rw [hred, alistDel_set, alistSet_set_self]
  by_cases hk : alistHasKey fields "mcpServers"
  · have hem : ensureMcp fields = fields := by simp [ensureMcp, hk]
    rw [hem] at hl ⊢
    have hdel : alistDel servers "gasoline" = servers :=
      alistDel_not_has servers "gasoline" (hng servers hl)
    rw [hdel, alistSet_lookup_self fields "mcpServers" _ hl]
    simp [hk]
  · have hem : ensureMcp fields = alistSet fields "mcpServers" (Json.obj []) := by
      simp [ensureMcp, hk]
    rw [hem] at hl
    rw [alistLookup_set_self] at hl
    have hEq : servers = [] := (Json.obj.inj (Option.some.inj hl)).symm
    subst hEq
    rw [hem]
    simp only [alistDel, alistSet_set_self]
    simp [hk]

/-- Witness for C2's amended statement: a document with a sibling server and no
`gasoline` key round-trips exactly. -/
theorem C2_witness :
    remove_gasoline_entry
        (Json.obj [("mcpServers", Json.obj [("other", Json.obj [("command", Json.str "x")]),
          ("gasoline", gasoline_entry)])])
      = some (Json.obj [("mcpServers",
          Json.obj [("other", Json.obj [("command", Json.str "x")])])]) := by
  have h := C2_roundtrip_amended
    [("mcpServers", Json.obj [("other", Json.obj [("command", Json.str "x")])])]
    gasoline_entry []
    (Json.obj [("mcpServers", Json.obj [("other", Json.obj [("command", Json.str "x")]),
      ("gasoline", gasoline_entry)])])
    rfl
    (by
      intro servers hserv
      have h' : some (Json.obj [("other", Json.obj [("command", Json.str "x")])])
          = some (Json.obj servers) := hserv
      have h2 : [("other", Json.obj [("command", Json.str "x")])] = servers :=
        Json.obj.inj (Option.some.inj h')
      rw [← h2]
      rfl)
  exact h

/-- Claim C9 counterexample: an object document with no `mcpServers` key does
not validate cleanly — `validate_mcp_config` requires the field and returns
"Missing required field: mcpServers". -/
theorem C9_counterexample :
    validate_mcp_config (Json.obj []) = ["Missing required field: mcpServers"]
    ∧ validate_mcp_config (Json.obj []) ≠ [] := by
  refine ⟨rfl, ?_⟩
  simp [validate_mcp_config, alistHasKey, alistLookup]

/-- Claim C9 as amended: `validate_mcp_config` returns an empty error list
exactly for object documents that do contain an object-valued `mcpServers`
field; a missing field, a non-object document, and a non-object `mcpServers`
all yield a non-empty error list. -/
theorem C9_validate_characterization (data : Json) :
    validate_mcp_config data = [] ↔
      ∃ fields servers, data = Json.obj fields ∧
        alistLookup fields "mcpServers" = some (Json.obj servers) := by
  cases data with
  | obj fields =>
      constructor
      · intro h
        by_cases hk : alistHasKey fields "mcpServers"
        · cases hl : alistLookup fields "mcpServers" with
          | none => simp [alistHasKey, hl] at hk
          | some v =>
              cases v with
              | obj servers => exact ⟨fields, servers, rfl, hl⟩
              | null => simp [validate_mcp_config, hk, hl] at h
              | bool b => simp [validate_mcp_config, hk, hl] at h
              | num n => simp [validate_mcp_config, hk, hl] at h
              | str s => simp [validate_mcp_config, hk, hl] at h
              | arr xs => simp [validate_mcp_config, hk, hl] at h
        · simp [validate_mcp_config, hk] at h
      · rintro ⟨fields', servers, hEq, hl⟩
        obtain rfl : fields = fields' := Json.obj.inj hEq
        have hk : alistHasKey fields "mcpServers" = true := by
          simp [alistHasKey, hl]
        simp [validate_mcp_config, hk, hl]
  | null =>
      simp [validate_mcp_config]
  | bool b =>
      simp [validate_mcp_config]
  | num n =>
      simp [validate_mcp_config]
  | str s =>
      simp [validate_mcp_config]
  | arr xs =>
      simp [validate_mcp_config]

/-- Claim C7: for an existing file, `read_config_file` raises `FileSizeError`
exactly when the file's size exceeds 1,048,576 bytes. -/
theorem C7_read_size_guard (fs : FS) (path : String) (f : FSFile)
    (hf : alistLookup fs.files path = some f) :
    if 1048576 < f.size then
      read_config_file fs path = Except.error (PyErr.fileSizeErr path f.size)
    else ∀ s, read_config_file fs path ≠ Except.error (PyErr.fileSizeErr path s) := by
  unfold read_config_file
  rw [hf]
  by_cases h : 1048576 < f.size
  · simp [h]
  · simp only [h, if_neg, if_false, gt_iff_lt]
    intro s
    cases hp : f.parsed with
    | none => simp [h, hp]
    | some d => simp [h, hp]

/-- Witness for C7 at the claim's two boundary sizes: 1,048,577 bytes raises
`FileSizeError`; 1,048,576 bytes does not. -/
theorem C7_witness :
    read_config_file ⟨[("/cfg", ⟨1048577, some Json.null⟩)], []⟩ "/cfg"
      = Except.error (PyErr.fileSizeErr "/cfg" 1048577)
    ∧ ∀ s, read_config_file ⟨[("/cfg", ⟨1048576, some Json.null⟩)], []⟩ "/cfg"
        ≠ Except.error (PyErr.fileSizeErr "/cfg" s) := by
  constructor
  · have h := C7_read_size_guard ⟨[("/cfg", ⟨1048577, some Json.null⟩)], []⟩ "/cfg"
      ⟨1048577, some Json.null⟩ rfl
    simpa using h
  · have h := C7_read_size_guard ⟨[("/cfg", ⟨1048576, some Json.null⟩)], []⟩ "/cfg"
      ⟨1048576, some Json.null⟩ rfl
    simpa using h

/-- Claim C4 (CLI-type install path, modelled from the spec): a non-dry-run
install of a CLI-type client invokes exactly that client's registration
command (`detectCommand` with `installArgs`), feeds the JSON-serialized
service entry on standard input under a 15-second timeout, and flags a
per-client error exactly when the process exits nonzero or fails to launch. -/
theorem C4_cli_install_invokes (c : CliClient) (env_vars : List (String × Json))
    (run : ProcCall → ProcOutcome) :
    (install_to_client_cli c env_vars false run).2
      = some ⟨c.detectCommand, c.installArgs, build_mcp_entry env_vars, 15⟩
    ∧ ((install_to_client_cli c env_vars false run).1.isError = true ↔
        run ⟨c.detectCommand, c.installArgs, build_mcp_entry env_vars, 15⟩
          ≠ ProcOutcome.success) := by
  unfold install_to_client_cli
  cases h : run ⟨c.detectCommand, c.installArgs, build_mcp_entry env_vars, 15⟩ with
  | success => simp [h]
  | nonzeroExit code => simp [h]
  | launchFailure => simp [h]

/-- Witness for C9's amended statement: a document with an object `mcpServers`
validates with no errors. -/
theorem C9_witness :
    validate_mcp_config (Json.obj [("mcpServers", Json.obj [])]) = [] :=
  (C9_validate_characterization (Json.obj [("mcpServers", Json.obj [])])).mpr
    ⟨[("mcpServers", Json.obj [])], [], rfl, rfl⟩

/-- Witness for C4 at the registry's CLI client: the invocation is `claude`
with the `mcp add-json` argument vector, entry on stdin, 15-second timeout. -/
theorem C4_witness :
    (install_to_client_cli claude_code_client [] false
        (fun _ => ProcOutcome.success)).2
      = some ⟨"claude", ["mcp", "add-json", "--scope", "user", "gasoline"],
              build_mcp_entry [], 15⟩ :=
  (C4_cli_install_invokes claude_code_client [] (fun _ => ProcOutcome.success)).1

/-! ### Dry-run leaves the filesystem untouched -/

theorem install_candidate_dry_fs (toolName : String → String) (entry : Json)
    (env_vars : List (String × Json)) (p : String) (fs : FS) :
    (_install_candidate toolName entry env_vars true p fs).2 = fs := by
  unfold _install_candidate
  cases read_config_file fs p with
  | error e => rfl
  | ok rr =>
      dsimp only
      cases merge_gasoline_config
          (match rr.data with
           | some d => if rr.valid then d else generate_default_config
           | none => generate_default_config) entry env_vars with
      | error e => rfl
      | ok merged => rfl

theorem process_candidate_dry_fs (toolName : String → String) (entry : Json)
    (env_vars : List (String × Json)) (for_all : Bool) (p : String)
    (res : InstallResult) (fs : FS) :
    (_process_candidate toolName entry env_vars true for_all p res fs).2 = fs := by
  have h := install_candidate_dry_fs toolName entry env_vars p fs
  unfold _process_candidate
  split
  · next u d ex fs1 heq =>
      rw [heq] at h
      exact h
  · next e fs1 heq =>
      rw [heq] at h
      have h1 : fs1 = fs := h
      by_cases hc : caughtByInstall e
      · simp only [hc, if_true]
        split
        · exact h1
        · exact h1
      · simp only [hc, Bool.false_eq_true, if_false]
        exact h1

theorem installLoop_dry_fs (toolName : String → String) (entry : Json)
    (env_vars : List (String × Json)) (for_all : Bool) :
    ∀ (candidates : List String) (found : Bool) (res : InstallResult) (fs : FS),
      (installLoop toolName entry env_vars true for_all candidates found res fs).2 = fs
  | [], _, _, _ => rfl
  | p :: rest, found, res, fs => by
      have hp := process_candidate_dry_fs toolName entry env_vars for_all p res fs
      unfold installLoop
      split
      · next e fs1 heq =>
          rw [heq] at hp
          exact hp
      · next ex stop res1 fs1 heq =>
          rw [heq] at hp
          have h1 : fs1 = fs := hp
          dsimp only
          by_cases hs : stop = true
          · simp only [hs, if_true]
            exact h1
          · simp only [hs, if_false]
            rw [h1]
            exact installLoop_dry_fs toolName entry env_vars for_all rest
              (found || ex) res1 fs

theorem install_default_dry_fs (toolName : String → String) (candidates : List String)
    (entry : Json) (env_vars : List (String × Json)) (fs : FS) :
    (_install_default_candidate toolName candidates entry env_vars true fs).2 = fs := by
  unfold _install_default_candidate
  cases candidates with
  | nil => rfl
  | cons p rest =>
      cases merge_gasoline_config generate_default_config entry env_vars with
      | error e =>
          by_cases hc : caughtByInstall e <;> simp [hc]
      | ok merged => rfl

theorem execute_install_dry_fs (toolName : String → String) (candidates : List String)
    (opts : InstallOptions) (fs : FS) (hd : opts.dryRun = true) :
    (execute_install toolName candidates opts fs).2 = fs := by
  unfold execute_install
  rw [hd]
  dsimp only
  have hl := installLoop_dry_fs toolName gasoline_entry opts.envVars opts.forAll
    candidates false ⟨false, [], [], [], 4⟩ fs
  split
  · next e fs1 heq =>
      rw [heq] at hl
      exact hl
  · next found res fs1 heq =>
      rw [heq] at hl
      have h1 : fs1 = fs := hl
      split
      · have hdf := install_default_dry_fs toolName candidates gasoline_entry
          opts.envVars fs1
        split
        · next e fs2 heq2 =>
            rw [heq2] at hdf
            have h2 : fs2 = fs1 := hdf
            rw [h2]
            exact h1
        · next u er fs2 heq2 =>
            rw [heq2] at hdf
            have h2 : fs2 = fs1 := hdf
            dsimp only
            rw [h2]
            exact h1
      · exact h1

theorem uninstall_via_file_dry_fs (c : FileClient) (fs : FS) :
    (_uninstall_via_file c true fs).2 = fs := by
  unfold _uninstall_via_file
  cases c.cfgPath with
  | none => rfl
  | some p =>
      dsimp only
      cases he : pathExists fs p with
      | false => simp only [he, Bool.not_false, if_true]
      | true =>
          simp only [he, Bool.not_true, Bool.false_eq_true, if_false]
          split
          · rfl
          · split
            · rfl
            · split
              · split
                · rfl
                · simp
              · rfl
            · rfl

/-- Claim C5: with `dryRun=true` nothing on disk is created, modified or
deleted — `write_config_file` returns success (with its dry-run flag) before
any I/O, file-type uninstall leaves the filesystem exactly as it was, and the
whole install orchestrator leaves the filesystem exactly as it was. -/
theorem C5_dry_run_pure (toolName : String → String) (candidates : List String)
    (opts : InstallOptions) (path : String) (data : Json) (c : FileClient)
    (fs : FS) (hd : opts.dryRun = true) :
    write_config_file fs path data true = (Except.ok ⟨true, true⟩, fs)
    ∧ (_uninstall_via_file c true fs).2 = fs
    ∧ (execute_install toolName candidates opts fs).2 = fs :=
  ⟨rfl, uninstall_via_file_dry_fs c fs,
   execute_install_dry_fs toolName candidates opts fs hd⟩

/-- Witness for C5 at concrete inputs: one existing candidate file, a file
client pointing at it, dry-run everywhere. -/
theorem C5_witness :
    write_config_file ⟨[("/a", ⟨10, some (Json.obj [])⟩)], []⟩ "/p" Json.null true
      = (Except.ok ⟨true, true⟩, ⟨[("/a", ⟨10, some (Json.obj [])⟩)], []⟩)
    ∧ (_uninstall_via_file ⟨"N", "i", some "/a"⟩ true
        ⟨[("/a", ⟨10, some (Json.obj [])⟩)], []⟩).2
      = ⟨[("/a", ⟨10, some (Json.obj [])⟩)], []⟩
    ∧ (execute_install (fun _ => "T") ["/a"] ⟨true, false, []⟩
        ⟨[("/a", ⟨10, some (Json.obj [])⟩)], []⟩).2
      = ⟨[("/a", ⟨10, some (Json.obj [])⟩)], []⟩ :=
  C5_dry_run_pure (fun _ => "T") ["/a"] ⟨true, false, []⟩ "/p" Json.null
    ⟨"N", "i", some "/a"⟩ ⟨[("/a", ⟨10, some (Json.obj [])⟩)], []⟩ rfl

/-! ### Candidate counting under `forAll` -/

theorem process_candidate_forAll (toolName : String → String) (entry : Json)
    (env_vars : List (String × Json)) (dry_run : Bool) (p : String)
    (res : InstallResult) (fs : FS) (ex stop : Bool) (res1 : InstallResult) (fs1 : FS)
    (h : _process_candidate toolName entry env_vars dry_run true p res fs
          = (Except.ok (ex, stop, res1), fs1)) :
    stop = false
    ∧ res1.updated.length + res1.errors.length
        = res.updated.length + res.errors.length + 1 := by
  unfold _process_candidate at h
  split at h
  · next u d ex' fs' heq =>
      simp only [Bool.not_true, Bool.false_and, Prod.mk.injEq, Except.ok.injEq] at h
      obtain ⟨⟨hex, hstop, hres⟩, hfs⟩ := h
      refine ⟨hstop.symm, ?_⟩
      rw [← hres]
      simp only [List.length_append, List.length_cons, List.length_nil]
      omega
  · next e fs' heq =>
      simp only [_handle_install_error, Bool.not_true, Bool.and_false,
        Bool.false_eq_true, if_false] at h
      split at h
      · next hc =>
          simp only [Prod.mk.injEq, Except.ok.injEq] at h
          obtain ⟨⟨hex, hstop, hres⟩, hfs⟩ := h
          refine ⟨by rw [← hstop], ?_⟩
          rw [← hres]
          simp only [List.length_append, List.length_cons, List.length_nil]
          omega
      · next hc => simp at h

theorem installLoop_forAll_counts (toolName : String → String) (entry : Json)
    (env_vars : List (String × Json)) (dry_run : Bool) :
    ∀ (candidates : List String) (found : Bool) (res : InstallResult) (fs : FS)
      (found1 : Bool) (res1 : InstallResult) (fs1 : FS),
      installLoop toolName entry env_vars dry_run true candidates found res fs
        = (Except.ok (found1, res1), fs1) →
      res1.updated.length + res1.errors.length
        = res.updated.length + res.errors.length + candidates.length
  | [], found, res, fs, found1, res1, fs1, h => by
      unfold installLoop at h
      simp only [Prod.mk.injEq, Except.ok.injEq] at h
      obtain ⟨⟨hf, hr⟩, hfs⟩ := h
      rw [← hr]
      simp
  | p :: rest, found, res, fs, found1, res1, fs1, h => by
      unfold installLoop at h
      split at h
      · next e fs' heq => simp at h
      · next ex stop res' fs' heq =>
          obtain ⟨hstop, hcount⟩ :=
            process_candidate_forAll toolName entry env_vars dry_run p res fs
              ex stop res' fs' heq
          rw [hstop] at h
          simp only [Bool.false_eq_true, if_false] at h
          have htail := installLoop_forAll_counts toolName entry env_vars dry_run rest
            (found || ex) res' fs' found1 res1 fs1 h
          simp only [List.length_cons]
          omega

/-- Claim C3 counterexample: with the default options (`forAll` unset) and two
existing candidate files, `execute_install` stops at the first existing match —
the second candidate is neither updated nor given an error entry, and its file
is untouched — contradicting "the default behavior is not to stop at the first
existing match". -/
theorem C3_counterexample :
    execute_install (fun _ => "T") ["/a", "/b"] ⟨false, false, []⟩
        ⟨[("/a", ⟨2, some (Json.obj [])⟩), ("/b", ⟨2, some (Json.obj [])⟩)], []⟩
      = (Except.ok ⟨true, [⟨"T", "/a", false⟩], [], [], 4⟩,
         ⟨[("/a", ⟨100, some (Json.obj [("mcpServers",
             Json.obj [("gasoline", gasoline_entry)])])⟩),
           ("/b", ⟨2, some (Json.obj [])⟩)], []⟩)
    ∧ (1 : Nat) ≠ List.length ["/a", "/b"] :=
  ⟨rfl, by decide⟩

/-- Claim C3 as amended: only with `forAll=true` does `execute_install` attempt
every candidate — each candidate then contributes exactly one entry to
`updated` or `errors` when the run returns normally (an exception outside
`OSError`/`ValueError`/`KeyError`, such as `InvalidJSONError`, `FileSizeError`,
`TypeError` or a `GasolineError` write failure, still aborts the whole run);
with the default `forAll=false` the loop stops at the first existing match. -/
theorem C3_forAll_attempts_all (toolName : String → String) (candidates : List String)
    (opts : InstallOptions) (fs : FS) (r : InstallResult) (fs1 : FS)
    (hall : opts.forAll = true)
    (h : execute_install toolName candidates opts fs = (Except.ok r, fs1)) :
    r.updated.length + r.errors.length = candidates.length := by
  unfold execute_install at h
  rw [hall] at h
  dsimp only at h
  split at h
  · simp at h
  · next found res fs' heq =>
      simp only [Bool.not_true, Bool.and_false, Bool.false_and,
        Bool.false_eq_true, if_false] at h
      have hloop := installLoop_forAll_counts toolName gasoline_entry opts.envVars
        opts.dryRun candidates false ⟨false, [], [], [], 4⟩ fs found res fs' heq
      simp only [Prod.mk.injEq, Except.ok.injEq] at h
      obtain ⟨hr, hfs⟩ := h
      rw [← hr]
      simpa using hloop

/-- Witness for C3's amended statement: with `forAll=true` and two absent
candidates, both are attempted and both appear in `updated`. -/
theorem C3_witness :
    execute_install (fun _ => "T") ["/a", "/b"] ⟨false, true, []⟩ ⟨[], []⟩
      = (Except.ok ⟨true, [⟨"T", "/a", true⟩, ⟨"T", "/b", true⟩], [], [], 4⟩,
         ⟨[("/a", ⟨100, some generate_default_config⟩),
           ("/b", ⟨100, some generate_default_config⟩)], []⟩)
    ∧ (⟨true, [⟨"T", "/a", true⟩, ⟨"T", "/b", true⟩], [], [], 4⟩
        : InstallResult).updated.length
      + (⟨true, [⟨"T", "/a", true⟩, ⟨"T", "/b", true⟩], [], [], 4⟩
          : InstallResult).errors.length
      = List.length ["/a", "/b"] :=
  ⟨rfl, C3_forAll_attempts_all (fun _ => "T") ["/a", "/b"] ⟨false, true, []⟩
    ⟨[], []⟩ _ _ rfl rfl⟩

/-! ### The install fallback -/

theorem merge_default_eq : ∀ env_vars : List (String × Json),
    merge_gasoline_config generate_default_config gasoline_entry env_vars
      = Except.ok (mergedDefault env_vars)
  | [] => rfl
  | _ :: _ => rfl

/-- Claim C10 counterexample: when the fallback's write fails, the resulting
`GasolineError` propagates out of `_install_default_candidate` (its handler
catches only `OSError`/`ValueError`/`KeyError`), so no error entry named
"Claude Desktop" is produced at all. -/
theorem C10_counterexample :
    _install_default_candidate (fun _ => "Cursor") ["/a"] gasoline_entry [] false
        ⟨[], ["/a"]⟩
      = (Except.error (PyErr.gasolineErr "Failed to write /a"), ⟨[], ["/a"]⟩) :=
  rfl

/-- Claim C10 as amended: the fallback writes the freshly generated default
document merged with the service entry to the first candidate path and
reports it as updated with `isNew=true`; but a fallback write failure raises
a `GasolineError` that propagates out (no error entry — the handler that would
attribute the failure to the fixed name "Claude Desktop" catches only
`OSError`/`ValueError`/`KeyError`, which the write path cannot raise). -/
theorem C10_fallback_behavior (toolName : String → String) (p : String)
    (rest : List String) (env_vars : List (String × Json)) (fs : FS) :
    (fs.unwritable.contains p = false →
      _install_default_candidate toolName (p :: rest) gasoline_entry env_vars false fs
        = (Except.ok (some ⟨toolName p, p, true⟩, none),
           { fs with files := alistSet fs.files p (FSFile.mk
               (jsonDumpFile (mergedDefault env_vars)).length
               (some (mergedDefault env_vars))) }))
    ∧ (fs.unwritable.contains p = true →
      _install_default_candidate toolName (p :: rest) gasoline_entry env_vars false fs
        = (Except.error (PyErr.gasolineErr ("Failed to write " ++ p)), fs)) := by
  constructor
  · intro hw
    have hw' : ¬ p ∈ fs.unwritable := by simpa using hw
    unfold _install_default_candidate
    rw [merge_default_eq]
    dsimp only
    unfold write_config_file
    simp [hw', caughtByInstall]
  · intro hw
    have hw' : p ∈ fs.unwritable := by simpa using hw
    unfold _install_default_candidate
    rw [merge_default_eq]
    dsimp only
    unfold write_config_file
    simp [hw', caughtByInstall]

/-- Witness for C10's amended statement: a writable first candidate gets the
merged default document; an unwritable one propagates the `GasolineError`. -/
theorem C10_witness :
    _install_default_candidate (fun _ => "Cursor") ["/a"] gasoline_entry [] false ⟨[], []⟩
      = (Except.ok (some ⟨"Cursor", "/a", true⟩, none),
         ⟨[("/a", ⟨100, some (mergedDefault [])⟩)], []⟩)
    ∧ _install_default_candidate (fun _ => "Cursor") ["/a"] gasoline_entry [] false
        ⟨[], ["/a"]⟩
      = (Except.error (PyErr.gasolineErr ("Failed to write " ++ "/a")), ⟨[], ["/a"]⟩) :=
  ⟨(C10_fallback_behavior (fun _ => "Cursor") "/a" [] [] ⟨[], []⟩).1 rfl,
   (C10_fallback_behavior (fun _ => "Cursor") "/a" [] [] ⟨[], ["/a"]⟩).2 rfl⟩

/-! ### File-type uninstall behavior -/

/-- Claim C8 counterexample: a document whose `gasoline` key maps to a falsy
value (here the empty object) *does* have the key, yet non-dry-run uninstall
reports `notConfigured` and leaves the file untouched instead of removing the
key and deleting the file. -/
theorem C8_counterexample :
    _uninstall_via_file ⟨"Cursor", "cursor", some "/m"⟩ false
        ⟨[("/m", ⟨20, some (Json.obj [("mcpServers",
            Json.obj [("gasoline", Json.obj [])])])⟩)], []⟩
      = (Except.ok ⟨UStatus.notConfigured, "Cursor", "cursor", none⟩,
         ⟨[("/m", ⟨20, some (Json.obj [("mcpServers",
             Json.obj [("gasoline", Json.obj [])])])⟩)], []⟩)
    ∧ alistHasKey [("gasoline", Json.obj [])] "gasoline" = true :=
  ⟨rfl, rfl⟩

/-- Claim C8 as amended: for a FILE-type client whose config file exists,
parses as a JSON object within the size limit, and has an object `mcpServers`:
if the `gasoline` key is absent *or maps to a falsy value*, uninstall reports
`notConfigured` and leaves the file untouched; if it maps to a truthy value,
non-dry-run uninstall removes the key, deletes the file itself when no other
server entries remain, and otherwise writes back the reduced document. -/
theorem C8_uninstall_file_behavior (c : FileClient) (p : String) (fs : FS)
    (sz : Nat) (fields servers : List (String × Json))
    (hp : c.cfgPath = some p)
    (hf : alistLookup fs.files p = some ⟨sz, some (Json.obj fields)⟩)
    (hsz : sz ≤ 1048576)
    (hm : alistLookup fields "mcpServers" = some (Json.obj servers)) :
    (pyTruthyOpt (alistLookup servers "gasoline") = false →
      _uninstall_via_file c false fs
        = (Except.ok ⟨UStatus.notConfigured, c.name, c.id, none⟩, fs))
    ∧ (pyTruthyOpt (alistLookup servers "gasoline") = true →
        ((alistDel servers "gasoline").isEmpty = true →
          _uninstall_via_file c false fs
            = (Except.ok ⟨UStatus.removed, c.name, c.id, some p⟩,
               { fs with files := alistDel fs.files p }))
        ∧ ((alistDel servers "gasoline").isEmpty = false →
            fs.unwritable.contains p = false →
          _uninstall_via_file c false fs
            = (Except.ok ⟨UStatus.removed, c.name, c.id, some p⟩,
               { fs with files := alistSet fs.files p (FSFile.mk
                   (jsonDumpFile (Json.obj (alistSet fields "mcpServers"
                       (Json.obj (alistDel servers "gasoline"))))).length
                   (some (Json.obj (alistSet fields "mcpServers"
                       (Json.obj (alistDel servers "gasoline")))))) }))) := by
  have hex : pathExists fs p = true := by simp [pathExists, hf]
  have hread : read_config_file fs p = Except.ok ⟨true, some (Json.obj fields)⟩ := by
    unfold read_config_file
    rw [hf]
    dsimp only
    rw [if_neg (by omega : ¬ (1048576 < sz))]
  unfold _uninstall_via_file
  rw [hp]
  simp only [hex, Bool.not_true, Bool.false_eq_true, if_false, hread, hm,
    Option.getD_some]
  constructor
  · intro ht
    simp [ht]
  · intro ht
    constructor
    · intro hemp
      simp only [ht, Bool.not_true, Bool.false_eq_true, if_false, hemp,
        Bool.not_false, if_true]
    · intro hemp hw
      have hw' : ¬ p ∈ fs.unwritable := by simpa using hw
      simp only [ht, Bool.not_true, Bool.false_eq_true, if_false, hemp,
        Bool.not_false, if_true]
      unfold write_config_file
      simp [hw']

/-- Witness for C8's amended statement: a file holding only the service entry
is deleted outright; a file with a sibling entry is written back reduced. -/
theorem C8_witness :
    _uninstall_via_file ⟨"Cursor", "cursor", some "/m"⟩ false
        ⟨[("/m", ⟨30, some (Json.obj [("mcpServers",
            Json.obj [("gasoline", gasoline_entry)])])⟩)], []⟩
      = (Except.ok ⟨UStatus.removed, "Cursor", "cursor", some "/m"⟩, ⟨[], []⟩)
    ∧ _uninstall_via_file ⟨"Cursor", "cursor", some "/m"⟩ false
        ⟨[("/m", ⟨40, some (Json.obj [("mcpServers",
            Json.obj [("gasoline", gasoline_entry),
                      ("other", Json.obj [("command", Json.str "x")])])])⟩)], []⟩
      = (Except.ok ⟨UStatus.removed, "Cursor", "cursor", some "/m"⟩,
         ⟨[("/m", ⟨68, some (Json.obj [("mcpServers",
             Json.obj [("other", Json.obj [("command", Json.str "x")])])])⟩)], []⟩) :=
  ⟨((C8_uninstall_file_behavior ⟨"Cursor", "cursor", some "/m"⟩ "/m"
      ⟨[("/m", ⟨30, some (Json.obj [("mcpServers",
          Json.obj [("gasoline", gasoline_entry)])])⟩)], []⟩
      30 [("mcpServers", Json.obj [("gasoline", gasoline_entry)])]
      [("gasoline", gasoline_entry)]
      rfl rfl (by omega) rfl).2 rfl).1 rfl,
   ((C8_uninstall_file_behavior ⟨"Cursor", "cursor", some "/m"⟩ "/m"
      ⟨[("/m", ⟨40, some (Json.obj [("mcpServers",
          Json.obj [("gasoline", gasoline_entry),
                    ("other", Json.obj [("command", Json.str "x")])])])⟩)], []⟩
      40 [("mcpServers", Json.obj [("gasoline", gasoline_entry),
          ("other", Json.obj [("command", Json.str "x")])])]
      [("gasoline", gasoline_entry), ("other", Json.obj [("command", Json.str "x")])]
      rfl rfl (by omega) rfl).2 rfl).2 rfl rfl⟩

end Gasoline
